import Mathlib

/-!
Shallow embedding of `src/pwa/app.js` (football-matches PWA client).

JavaScript values relevant to the client are modelled explicitly:
optional / nullable fields become `Option`, JS `||` string fallback
(which also skips the empty string, since `""` is falsy) becomes
`jsOrS`, JS `?? ` nullish coalescing becomes `Option.getD`, and the
loose `== null` test on goal counts becomes a match on `Option Int`.
DOM effects are modelled as explicit state (`Dom`).  The local clock
and locale formatting are abstracted into an `Env` record: `today` is
the value `toLocalISODate()` returns at render time, and
`fmtTimestamp` is `x => new Date(x).toLocaleString()` (with `none`
standing for the `Date.now()` fallback).
-/

namespace FootballMatches

/-- `m.league` sub-object: `{ name: ... }` with a possibly absent name. -/
structure League where
  name : Option String
deriving DecidableEq

/-- A team sub-object inside `m.teams`: `{ name: ... }`. -/
structure TeamObj where
  name : Option String
deriving DecidableEq

/-- `m.teams` sub-object: `{ home: {...}, away: {...} }`, each possibly absent. -/
structure Teams where
  home : Option TeamObj
  away : Option TeamObj
deriving DecidableEq

/-- One match entry of the API response (§3 MatchRecord).  Every field the
renderer reads is optional; `none` stands for a JS `null`/`undefined` field. -/
structure MatchRecord where
  date_utc : Option String := none
  date : Option String := none
  kickoff : Option String := none
  league_name : Option String := none
  league : Option League := none
  competition : Option String := none
  home_team : Option String := none
  home : Option String := none
  teams : Option Teams := none
  away_team : Option String := none
  away : Option String := none
  home_goals : Option Int := none
  away_goals : Option Int := none
deriving DecidableEq

/-- The payload `renderMatches` receives: a bare JSON array, an object with
optional `date` and `matches` fields, JS `null`/`undefined`, or a non-object
primitive (on which property access yields `undefined`). -/
inductive Payload where
  | arr (ms : List MatchRecord)
  | obj (date : Option String) (matchList : Option (List MatchRecord))
  | nullish
  | prim

/-- JS string fallback `a || b`: a `null`/`undefined`/empty (falsy) left
operand yields the right operand. -/
def jsOrS (a : Option String) (b : String) : String :=
  match a with
  | some s => if s = "" then b else s
  | none => b

/-- First truthy of `m.date_utc || m.date || m.kickoff`; `none` means all
three are falsy and `Date.now()` is used instead. -/
def whenSrc (m : MatchRecord) : Option String :=
  match m.date_utc with
  | some s => if s = "" then (match m.date with
      | some t => if t = "" then (match m.kickoff with
          | some u => if u = "" then none else some u
          | none => none) else some t
      | none => (match m.kickoff with
          | some u => if u = "" then none else some u
          | none => none)) else some s
  | none => (match m.date with
      | some t => if t = "" then (match m.kickoff with
          | some u => if u = "" then none else some u
          | none => none) else some t
      | none => (match m.kickoff with
          | some u => if u = "" then none else some u
          | none => none))

/-- `m.league_name || m.league?.name || m.competition || "—"`. -/
def leagueOf (m : MatchRecord) : String :=
  jsOrS m.league_name (jsOrS (m.league.bind League.name)
    (jsOrS m.competition "—"))

/-- `m.home_team || m.home || m.teams?.home?.name || "Home"`. -/
def homeOf (m : MatchRecord) : String :=
  jsOrS m.home_team (jsOrS m.home
    (jsOrS ((m.teams.bind Teams.home).bind TeamObj.name) "Home"))

/-- `m.away_team || m.away || m.teams?.away?.name || "Away"`. -/
def awayOf (m : MatchRecord) : String :=
  jsOrS m.away_team (jsOrS m.away
    (jsOrS ((m.teams.bind Teams.away).bind TeamObj.name) "Away"))

/-- `m.home_goals == null || m.away_goals == null ? "vs" :
`${m.home_goals}–${m.away_goals}``.  Loose `== null` is true exactly for
`null` and `undefined`, i.e. for `none`; the number `0` is `some 0`. -/
def scoreOf (m : MatchRecord) : String :=
  match m.home_goals, m.away_goals with
  | some h, some a => toString h ++ "–" ++ toString a
  | _, _ => "vs"

/-- Render-time environment: the local clock and locale formatter. -/
structure Env where
  today : String
  fmtTimestamp : Option String → String

/-- One display line: `[<league>] <home> <score> <away> — <timeLocal>`. -/
def renderLine (env : Env) (m : MatchRecord) : String :=
  "[" ++ leagueOf m ++ "] " ++ homeOf m ++ " " ++ scoreOf m ++ " "
    ++ awayOf m ++ " — " ++ env.fmtTimestamp (whenSrc m)

/-- `payload?.date ?? toLocalISODate()`: only `null`/`undefined` (and payloads
without the property, such as arrays and primitives) fall back to today. -/
def resolvedDate (env : Env) (p : Payload) : String :=
  match p with
  | .arr _ => env.today
  | .obj d _ => d.getD env.today
  | .nullish => env.today
  | .prim => env.today

/-- `Array.isArray(payload) ? payload : (payload?.matches ?? [])`. -/
def resolvedMatches (p : Payload) : List MatchRecord :=
  match p with
  | .arr ms => ms
  | .obj _ m => m.getD []
  | .nullish => []
  | .prim => []

/-- `renderMatches` as a pure function: returns the status text and the
final contents of the list (the list is cleared before repopulation, so its
prior contents never matter). -/
def renderMatches (env : Env) (p : Payload) : String × List String :=
  let date := resolvedDate env p
  let ms := resolvedMatches p
  let status := "date: " ++ date ++ " • matches: " ++ toString ms.length
  if ms.length = 0 then
    (status, ["No matches for this date."])
  else
    (status, ms.map (renderLine env))

/-- An HTTP response as `fetchJSON` observes it: `ok` (2xx), the numeric
status, and the result of `res.text()` (`none` when the body read rejects,
which the code swallows via `.catch(() => "")`). -/
structure HttpResp where
  ok : Bool
  status : Nat
  text : Option String

/-- `fetchJSON`, with the transport and JSON parsing abstracted: `parsed`
is the outcome of `res.json()` on the success path (`.error` for a JSON
parse failure, which propagates as-is).  On `!res.ok` it throws
`HTTP ${res.status} • ${txt || url}`. -/
def fetchJSON (url : String) (res : HttpResp) (parsed : Except String Payload) :
    Except String Payload :=
  if res.ok then parsed
  else
    let txt := res.text.getD ""
    .error ("HTTP " ++ toString res.status ++ " • " ++ (if txt = "" then url else txt))

/-- The DOM state the script mutates: the disabled flags of the two buttons, the
status text, and the displayed list items. -/
structure Dom where
  btnTodayDisabled : Bool
  btnLoadDisabled : Bool
  status : String
  list : List String

/-- `setLoading(on)`. -/
def setLoadingD (flag : Bool) (d : Dom) : Dom :=
  { d with btnTodayDisabled := flag, btnLoadDisabled := flag }

/-- `setStatus(msg)`. -/
def setStatusD (msg : String) (d : Dom) : Dom :=
  { d with status := msg }

/-- `renderMatches` applied to the DOM: clears the list, sets the status
line, repopulates the list. -/
def renderMatchesD (env : Env) (p : Payload) (d : Dom) : Dom :=
  { d with status := (renderMatches env p).1, list := (renderMatches env p).2 }

/-- DOM state of `fetchToday` while its `await` is pending: loading set,
status describing the in-flight request. -/
def fetchTodayPending (d : Dom) : Dom :=
  setStatusD "loading /api/matches/today …" (setLoadingD true d)

/-- DOM state of `fetchToday` after the try/catch resolves but before the
`finally` block: render on success, `error: <message>` plus cleared list on
failure.  `net` is the outcome of `await fetchJSON(...)`. -/
def fetchTodayResolved (env : Env) (net : Except String Payload) (d : Dom) : Dom :=
  match net with
  | .ok data => renderMatchesD env data (fetchTodayPending d)
  | .error msg => { setStatusD ("error: " ++ msg) (fetchTodayPending d) with list := [] }

/-- `fetchToday` end to end: the `finally` re-enables both controls. -/
def fetchToday (env : Env) (net : Except String Payload) (d : Dom) : Dom :=
  setLoadingD false (fetchTodayResolved env net d)

/-- DOM state of `fetchDate(dArg)` while its `await` is pending. -/
def fetchDatePending (dArg : String) (d : Dom) : Dom :=
  setStatusD ("loading /api/matches/date?d=" ++ dArg ++ " …") (setLoadingD true d)

/-- DOM state of `fetchDate` after the try/catch resolves, before `finally`. -/
def fetchDateResolved (env : Env) (dArg : String) (net : Except String Payload)
    (d : Dom) : Dom :=
  match net with
  | .ok data => renderMatchesD env data (fetchDatePending dArg d)
  | .error msg => { setStatusD ("error: " ++ msg) (fetchDatePending dArg d) with list := [] }

/-- `fetchDate` end to end: the `finally` re-enables both controls. -/
def fetchDate (env : Env) (dArg : String) (net : Except String Payload) (d : Dom) : Dom :=
  setLoadingD false (fetchDateResolved env dArg net d)

/-- The relevant parts of a parsed page URL, with the conventions of the JS
`URL` class: `protocol` keeps its trailing colon (`"https:"`), `port` is
`""` when the URL carries no explicit port. -/
structure PageURL where
  protocol : String
  hostname : String
  port : String

/-- The `API` constant: `none` models `new URL(location.href)` throwing
(the `catch` branch). -/
def resolveApiBase (u : Option PageURL) : String :=
  match u with
  | none => "http://127.0.0.1:8000"
  | some u =>
    if u.port = "5500" then "http://127.0.0.1:8000"
    else u.protocol ++ "//" ++ u.hostname ++ (if u.port = "" then "" else ":" ++ u.port)

/-- Characters `encodeURIComponent` leaves unescaped: letters, digits,
`- _ . ! ~ *`, the apostrophe (written `Char.ofNat 39`) and parentheses. -/
def uriUnreserved (c : Char) : Bool :=
  c.isAlphanum || c = '-' || c = '_' || c = '.' || c = '!' || c = '~'
    || c = '*' || c = Char.ofNat 39 || c = '(' || c = ')'

/-- Uppercase hexadecimal digit for `n < 16`. -/
def hexDigit (n : Nat) : Char :=
  if n < 10 then Char.ofNat (48 + n) else Char.ofNat (55 + n)

/-- Percent-encoding of one byte, `%XY` with uppercase hex. -/
def pctByte (b : Nat) : String :=
  "%" ++ String.singleton (hexDigit (b / 16 % 16)) ++ String.singleton (hexDigit (b % 16))

/-- Percent-encoding of one (non-unreserved) character: each of its UTF-8
bytes percent-encoded. -/
def pctEncodeChar (c : Char) : String :=
  ((String.singleton c).toUTF8.toList.map (fun b => pctByte b.toNat)).foldl (· ++ ·) ""

/-- `encodeURIComponent` over a character list. -/
def encodeChars : List Char → String
  | [] => ""
  | c :: cs =>
    (if uriUnreserved c then String.singleton c else pctEncodeChar c) ++ encodeChars cs

/-- `encodeURIComponent(s)`. -/
def encodeURIComponent (s : String) : String :=
  encodeChars s.data

/-- The URL `fetchDate` requests: `${API}/api/matches/date?d=${encodeURIComponent(d)}`. -/
def fetchDateUrl (api dArg : String) : String :=
  api ++ "/api/matches/date?d=" ++ encodeURIComponent dArg

/-- The URL `fetchToday` requests. -/
def fetchTodayUrl (api : String) : String :=
  api ++ "/api/matches/today"

/-- The argument the `btnLoad` click handler passes to `fetchDate`:
`$date.value || toLocalISODate()` — the empty field (falsy) falls back to
the local date of today. -/
def btnLoadArg (fieldValue today : String) : String :=
  if fieldValue = "" then today else fieldValue

/-- `YYYY-MM-DD`-shaped: every character a digit or a dash (the shape
`toLocalISODate` produces; enough to show `encodeURIComponent` is the
identity on it). -/
def isDateLike (s : String) : Bool :=
  s.data.all (fun c => c.isDigit || c = '-')

/-- Concrete environment used by the witness theorems. -/
def envW : Env :=
  { today := "2024-06-01", fmtTimestamp := fun _ => "TS" }

/-- Concrete initial DOM state used by the witness theorems. -/
def dom0 : Dom :=
  { btnTodayDisabled := false, btnLoadDisabled := false, status := "", list := [] }

/-- A match record with every optional field absent. -/
def m0 : MatchRecord := {}

/-- A match record with a played score. -/
def mGoals : MatchRecord :=
  { home_goals := some 1, away_goals := some 0 }

/-- If every character of a list is unreserved, `encodeChars` is the
identity embedding back into a string. -/
theorem encodeChars_of_unreserved (l : List Char)
    (h : ∀ c ∈ l, uriUnreserved c = true) : encodeChars l = String.mk l := by
  induction l with
  | nil => rfl
  | cons c cs ih =>
    have hc : uriUnreserved c = true := h c (List.mem_cons_self c cs)
    have ih' := ih (fun d hd => h d (List.mem_cons_of_mem c hd))
    simp only [encodeChars, hc, if_pos]
    rw [ih']
    rfl

/-- `encodeURIComponent` is the identity on `YYYY-MM-DD`-shaped strings. -/
theorem encodeURIComponent_dateLike (s : String) (h : isDateLike s = true) :
    encodeURIComponent s = s := by
  have hall : ∀ c ∈ s.data, uriUnreserved c = true := by
    intro c hc
    have := (List.all_eq_true.mp h) c hc
    rcases Bool.or_eq_true_iff.mp this with hd | hdash
    · simp [uriUnreserved, Char.isAlphanum, hd]
    · simp [uriUnreserved, hdash]
  rw [encodeURIComponent, encodeChars_of_unreserved s.data hall]

/-- Claim C1: the match list is the payload itself when it is an array,
else its `matches` field, else empty; for a non-empty resolved list the
rendered lines are exactly the input list mapped through the line renderer
(same count, same order, no sorting, filtering or deduplication), and a
bare array displays the current local date. -/
theorem claim_C1 (env : Env) (p : Payload) (d : Option String)
    (ms : List MatchRecord) (h : resolvedMatches p ≠ []) :
    (renderMatches env p).2 = (resolvedMatches p).map (renderLine env)
    ∧ (renderMatches env p).2.length = (resolvedMatches p).length
    ∧ resolvedMatches (.arr ms) = ms
    ∧ resolvedMatches (.obj d (some ms)) = ms
    ∧ resolvedMatches (.obj d none) = []
    ∧ resolvedDate env (.arr ms) = env.today := by
  have hlen : (resolvedMatches p).length ≠ 0 := by
    simpa [List.length_eq_zero] using h
  refine ⟨?_, ?_, rfl, rfl, rfl, rfl⟩
  · simp [renderMatches, hlen]
  · simp [renderMatches, hlen]

/-- Witness for claim C1 at a concrete bare-array payload. -/
theorem claim_C1_witness :
    resolvedMatches (Payload.arr [m0, mGoals]) ≠ []
    ∧ ((renderMatches envW (Payload.arr [m0, mGoals])).2
        = (resolvedMatches (Payload.arr [m0, mGoals])).map (renderLine envW)
      ∧ (renderMatches envW (Payload.arr [m0, mGoals])).2.length
        = (resolvedMatches (Payload.arr [m0, mGoals])).length
      ∧ resolvedMatches (.arr [m0]) = [m0]
      ∧ resolvedMatches (.obj (some "2024-05-01") (some [m0])) = [m0]
      ∧ resolvedMatches (.obj (some "2024-05-01") none) = []
      ∧ resolvedDate envW (.arr [m0]) = envW.today) :=
  ⟨List.cons_ne_nil _ _,
   claim_C1 envW (Payload.arr [m0, mGoals]) (some "2024-05-01") [m0]
     (List.cons_ne_nil _ _)⟩

/-- Claim C2: the score renders as `vs` when either goal count is null or
absent, and as the two counts joined by an en-dash otherwise; in
particular a null home count with away count 2 gives `vs`, and counts 1
and 0 give `1–0`. -/
theorem claim_C2 (m : MatchRecord) (hg ag : Int)
    (hh : m.home_goals = some hg) (ha : m.away_goals = some ag) :
    scoreOf m = toString hg ++ "–" ++ toString ag
    ∧ (∀ m' : MatchRecord, m'.home_goals = none → scoreOf m' = "vs")
    ∧ (∀ m' : MatchRecord, m'.away_goals = none → scoreOf m' = "vs")
    ∧ scoreOf { m with home_goals := none, away_goals := some 2 } = "vs"
    ∧ scoreOf { m with home_goals := some 1, away_goals := some 0 } = "1–0" := by
  refine ⟨?_, ?_, ?_, ?_, ?_⟩
  · simp [scoreOf, hh, ha]
  · intro m' h1
    simp [scoreOf, h1]
  · intro m' h1
    cases h2 : m'.home_goals <;> simp [scoreOf, h1, h2]
  · simp [scoreOf]
  · simp [scoreOf]
    decide

/-- Witness for claim C2 at a concrete 1–0 record. -/
theorem claim_C2_witness :
    mGoals.home_goals = some 1
    ∧ mGoals.away_goals = some 0
    ∧ scoreOf mGoals = toString (1 : Int) ++ "–" ++ toString (0 : Int) :=
  ⟨rfl, rfl, (claim_C2 mGoals 1 0 rfl rfl).1⟩

/-- Claim C3: on a non-success HTTP status the wrapper fails with a message
built from the status code and the body text (or the URL when the body is
empty); the action boundary surfaces it as `error: <message>` and clears
the list.  HTTP 500 with body `boom` yields exactly `HTTP 500 • boom`. -/
theorem claim_C3 (url : String) (res : HttpResp) (parsed : Except String Payload)
    (env : Env) (d0' : Dom) (h : res.ok = false) :
    fetchJSON url res parsed
      = .error ("HTTP " ++ toString res.status ++ " • "
          ++ (if res.text.getD "" = "" then url else res.text.getD ""))
    ∧ (∀ msg, (fetchToday env (.error msg) d0').status = "error: " ++ msg
        ∧ (fetchToday env (.error msg) d0').list = [])
    ∧ fetchJSON url ⟨false, 500, some "boom"⟩ parsed = .error "HTTP 500 • boom"
    ∧ (fetchToday env (fetchJSON url ⟨false, 500, some "boom"⟩ parsed) d0').status
        = "error: HTTP 500 • boom"
    ∧ (fetchToday env (fetchJSON url ⟨false, 500, some "boom"⟩ parsed) d0').list = [] := by
  have h500 : fetchJSON url ⟨false, 500, some "boom"⟩ parsed
      = .error "HTTP 500 • boom" := by
    simp only [fetchJSON, Bool.false_eq_true, if_false]
    rfl
  refine ⟨?_, ?_, h500, ?_, ?_⟩
  · simp [fetchJSON, h]
  · intro msg
    constructor <;>
      simp [fetchToday, fetchTodayResolved, fetchTodayPending, setStatusD, setLoadingD]
  · rw [h500]
    simp [fetchToday, fetchTodayResolved, fetchTodayPending, setStatusD, setLoadingD]
  · rw [h500]
    simp [fetchToday, fetchTodayResolved, fetchTodayPending, setStatusD, setLoadingD]

/-- Witness for claim C3 at a concrete HTTP 500 response with body boom. -/
theorem claim_C3_witness :
    (HttpResp.mk false 500 (some "boom")).ok = false
    ∧ fetchJSON "http://127.0.0.1:8000/api/matches/today"
        ⟨false, 500, some "boom"⟩ (.ok Payload.nullish)
      = .error "HTTP 500 • boom"
    ∧ (fetchToday envW
        (fetchJSON "http://127.0.0.1:8000/api/matches/today"
          ⟨false, 500, some "boom"⟩ (.ok Payload.nullish)) dom0).status
      = "error: HTTP 500 • boom" :=
  ⟨rfl,
   (claim_C3 "http://127.0.0.1:8000/api/matches/today" ⟨false, 500, some "boom"⟩
      (.ok Payload.nullish) envW dom0 rfl).2.2.1,
   (claim_C3 "http://127.0.0.1:8000/api/matches/today" ⟨false, 500, some "boom"⟩
      (.ok Payload.nullish) envW dom0 rfl).2.2.2.1⟩

/-- Claim C4: port 5500 resolves the API base to `http://127.0.0.1:8000`;
any other page URL resolves to its own scheme, hostname and (possibly
empty) port; a parse failure falls back to `http://127.0.0.1:8000`; the two
concrete example URLs resolve as the spec states. -/
theorem claim_C4 (u : PageURL) :
    (u.port = "5500" → resolveApiBase (some u) = "http://127.0.0.1:8000")
    ∧ (u.port ≠ "5500" →
        resolveApiBase (some u)
          = u.protocol ++ "//" ++ u.hostname
              ++ (if u.port = "" then "" else ":" ++ u.port))
    ∧ resolveApiBase none = "http://127.0.0.1:8000"
    ∧ resolveApiBase (some ⟨"http:", "localhost", "5500"⟩) = "http://127.0.0.1:8000"
    ∧ resolveApiBase (some ⟨"https:", "example.com", "9090"⟩)
        = "https://example.com:9090" := by
  refine ⟨?_, ?_, rfl, rfl, ?_⟩
  · intro h
    simp [resolveApiBase, h]
  · intro h
    simp [resolveApiBase, h]
  · rfl

/-- Witness for claim C4 at the two concrete page URLs. -/
theorem claim_C4_witness :
    resolveApiBase (some ⟨"http:", "localhost", "5500"⟩) = "http://127.0.0.1:8000"
    ∧ resolveApiBase (some ⟨"https:", "example.com", "9090"⟩)
        = "https:" ++ "//" ++ "example.com"
            ++ (if ("9090" : String) = "" then "" else ":" ++ "9090") :=
  ⟨(claim_C4 ⟨"http:", "localhost", "5500"⟩).1 rfl,
   (claim_C4 ⟨"https:", "example.com", "9090"⟩).2.1 (by decide)⟩

/-- Claim C5: any payload whose resolved match list is empty renders the
status `date: <date> • matches: 0` and a single no-matches entry; the
concrete payload with date 2024-05-01 and empty matches renders exactly
as the spec states. -/
theorem claim_C5 (env : Env) (p : Payload) (h : resolvedMatches p = []) :
    renderMatches env p
      = ("date: " ++ resolvedDate env p ++ " • matches: 0",
         ["No matches for this date."])
    ∧ renderMatches env (.obj (some "2024-05-01") (some []))
      = ("date: 2024-05-01 • matches: 0", ["No matches for this date."]) := by
  constructor
  · simp only [renderMatches, h, List.length_nil, if_pos]
    rw [String.append_assoc ("date: " ++ resolvedDate env p)]
    rfl
  · rfl

/-- Witness for claim C5 at a concrete empty payload. -/
theorem claim_C5_witness :
    resolvedMatches (Payload.obj (some "2024-05-01") (some [])) = []
    ∧ renderMatches envW (Payload.obj (some "2024-05-01") (some []))
      = ("date: "
          ++ resolvedDate envW (Payload.obj (some "2024-05-01") (some []))
          ++ " • matches: 0",
         ["No matches for this date."]) :=
  ⟨rfl, (claim_C5 envW (Payload.obj (some "2024-05-01") (some [])) rfl).1⟩

/-- Claim C6: the league label takes `league_name` first (even when
`league.name` is also set), then `league.name`, then `competition`, and
is the em-dash placeholder when none of the three is set. -/
theorem claim_C6 (m : MatchRecord) (s t c : String) (hs : s ≠ "") (hc : c ≠ "") :
    leagueOf { m with league_name := some s, league := some ⟨some t⟩ } = s
    ∧ leagueOf { m with league_name := none, league := none, competition := some c } = c
    ∧ leagueOf { m with league_name := none, league := some ⟨none⟩, competition := some c } = c
    ∧ leagueOf { m with league_name := none, league := none, competition := none } = "—" := by
  refine ⟨?_, ?_, ?_, ?_⟩ <;>
    simp [leagueOf, jsOrS, hs, hc]

/-- Witness for claim C6 at concrete league field values. -/
theorem claim_C6_witness :
    ("Premier League" : String) ≠ ""
    ∧ ("Cup" : String) ≠ ""
    ∧ leagueOf { m0 with league_name := some "Premier League", league := some ⟨some "PL"⟩ }
        = "Premier League" :=
  ⟨by decide, by decide,
   (claim_C6 m0 "Premier League" "PL" "Cup" (by decide) (by decide)).1⟩

/-- Claim C7: while a fetch is pending both trigger controls are disabled
(they are set before the await and still disabled when the try/catch
resolves), and after the finally block of either action — on success or on
failure — both controls are enabled again. -/
theorem claim_C7 (env : Env) (s0 : Dom) (net : Except String Payload) (dArg : String) :
    ((fetchTodayPending s0).btnTodayDisabled = true
      ∧ (fetchTodayPending s0).btnLoadDisabled = true)
    ∧ ((fetchTodayResolved env net s0).btnTodayDisabled = true
      ∧ (fetchTodayResolved env net s0).btnLoadDisabled = true)
    ∧ ((fetchToday env net s0).btnTodayDisabled = false
      ∧ (fetchToday env net s0).btnLoadDisabled = false)
    ∧ ((fetchDatePending dArg s0).btnTodayDisabled = true
      ∧ (fetchDatePending dArg s0).btnLoadDisabled = true)
    ∧ ((fetchDateResolved env dArg net s0).btnTodayDisabled = true
      ∧ (fetchDateResolved env dArg net s0).btnLoadDisabled = true)
    ∧ ((fetchDate env dArg net s0).btnTodayDisabled = false
      ∧ (fetchDate env dArg net s0).btnLoadDisabled = false) := by
  cases net <;>
    simp [fetchToday, fetchTodayResolved, fetchTodayPending, fetchDate,
      fetchDateResolved, fetchDatePending, renderMatchesD, setStatusD, setLoadingD]

/-- Claim C8: the renderer is total over its payload: null, undefined, a
non-object primitive and an object with no fields all render without
failure, with the date falling back to today, the match list resolving to
empty, and the single no-matches entry displayed. -/
theorem claim_C8 (env : Env) :
    renderMatches env .nullish
      = ("date: " ++ env.today ++ " • matches: 0", ["No matches for this date."])
    ∧ renderMatches env .prim
      = ("date: " ++ env.today ++ " • matches: 0", ["No matches for this date."])
    ∧ renderMatches env (.obj none none)
      = ("date: " ++ env.today ++ " • matches: 0", ["No matches for this date."])
    ∧ resolvedDate env .nullish = env.today
    ∧ resolvedDate env .prim = env.today
    ∧ resolvedDate env (.obj none none) = env.today
    ∧ resolvedMatches .nullish = []
    ∧ resolvedMatches .prim = []
    ∧ resolvedMatches (.obj none none) = [] := by
  refine ⟨?_, ?_, ?_, rfl, rfl, rfl, rfl, rfl, rfl⟩ <;>
    · simp only [renderMatches, resolvedMatches, resolvedDate, Option.getD,
        List.length_nil, if_pos]
      rw [String.append_assoc ("date: " ++ env.today)]
      rfl

/-- Claim C9: a 0–0 score is rendered as `0–0`, not `vs`: the null check
distinguishes the number 0 from null and absent. -/
theorem claim_C9 (m : MatchRecord) (hh : m.home_goals = some 0)
    (ha : m.away_goals = some 0) :
    scoreOf m = "0–0" ∧ scoreOf m ≠ "vs" := by
  have h1 : scoreOf m = "0–0" := by
    simp [scoreOf, hh, ha]
    rfl
  exact ⟨h1, by rw [h1]; decide⟩

/-- Witness for claim C9 at a concrete 0–0 record. -/
theorem claim_C9_witness :
    (MatchRecord.mk none none none none none none none none none none none
        (some 0) (some 0)).home_goals = some 0
    ∧ scoreOf (MatchRecord.mk none none none none none none none none none
        none none (some 0) (some 0)) = "0–0" :=
  ⟨rfl,
   (claim_C9 (MatchRecord.mk none none none none none none none none none
      none none (some 0) (some 0)) rfl rfl).1⟩

/-- Claim C10: clicking btnLoad with an empty date field calls `fetchDate`
with the local date of today rather than the empty string, and the request
URL then carries that date verbatim as its `d` parameter (the encoding is
the identity on date-shaped strings). -/
theorem claim_C10 (today api fieldV : String) (h : isDateLike today = true) :
    btnLoadArg "" today = today
    ∧ fetchDateUrl api (btnLoadArg "" today)
        = api ++ "/api/matches/date?d=" ++ today
    ∧ (fieldV ≠ "" → btnLoadArg fieldV today = fieldV) := by
  refine ⟨rfl, ?_, ?_⟩
  · show fetchDateUrl api today = api ++ "/api/matches/date?d=" ++ today
    rw [fetchDateUrl, encodeURIComponent_dateLike today h]
  · intro hf
    simp [btnLoadArg, hf]

/-- Witness for claim C10 at a concrete date. -/
theorem claim_C10_witness :
    isDateLike "2024-05-01" = true
    ∧ fetchDateUrl "http://127.0.0.1:8000" (btnLoadArg "" "2024-05-01")
        = "http://127.0.0.1:8000" ++ "/api/matches/date?d=" ++ "2024-05-01" :=
  ⟨by decide,
   (claim_C10 "2024-05-01" "http://127.0.0.1:8000" "x" (by decide)).2.1⟩

end FootballMatches
